import Mathlib

/-!
Verification development for `firmware/src/platforms.py`: the platform
registry data, the `~/.sailfish_platforms.py` extension-site merge loop,
the documented define-composition convention, and the `__main__` listing.

Python dictionaries are embedded as insertion-ordered association lists
(`PyDict`); the module-level load is embedded as an explicit function from
the baseline registry and the outcome of evaluating the site file to the
final content of the module's `platforms` variable.
-/

/-- One value of the `platforms` dictionary: the build settings of a single
platform (fields as in the source: `mcu`, `programmer`, `board_directory`,
`defines`). No entry of the shipped registry carries a `squeeze` key, so the
field is omitted. -/
structure Profile where
  mcu : String
  programmer : String
  board_directory : String
  defines : List String
deriving DecidableEq

/-- A Python dict with string keys, embedded as an insertion-ordered
association list. A real dict never holds two bindings of the same key;
theorems that depend on that take a `Nodup` hypothesis on the key list. -/
abbrev PyDict (α : Type) := List (String × α)

/-- The type of the `platforms` dictionary. -/
abbrev Registry := PyDict Profile

/-- Lookup `d[k]`: the first binding of `k`, if any. -/
def dictGet {α : Type} : PyDict α → String → Option α
  | [], _ => none
  | (k, v) :: rest, n => if k = n then some v else dictGet rest n

/-- Assignment `d[k] = v`: overwrite the existing binding in place if the key
is present, else append a new binding (dict insertion order). -/
def dictSet {α : Type} : PyDict α → String → α → PyDict α
  | [], n, v => [(n, v)]
  | (k, w) :: rest, n, v => if k = n then (n, v) :: rest else (k, w) :: dictSet rest n v

/-- The key list of a dict, in iteration order. -/
def dictKeys {α : Type} (d : PyDict α) : List String := d.map Prod.fst

/-- Lines 889-892 of the source:
`for key in tmp_platforms: platforms[key] = tmp_platforms[key]`. -/
def mergePlatforms (base ext : Registry) : Registry :=
  ext.foldl (fun acc kv => dictSet acc kv.1 kv.2) base

/-- The exceptions relevant to module load. `execError` is the raw exception
escaping the `exec` of the site file (the code installs no handler, so it
propagates as-is). `extensionLoadError` is the wrapper exception class the
spec describes (`ExtensionLoadError`); it is declared here so the spec's
expectation is expressible, and the source defines no such class. -/
inductive PyErr where
  | execError (msg : String)
  | extensionLoadError (msg : String)
deriving DecidableEq

/-- Lines 879-892 of the source: module initialization. `site` abstracts the
filesystem and the evaluation of `~/.sailfish_platforms.py`: `none` when the
file is absent (`isfile` false), `some (.error e)` when `exec` of its text
raises `e`, and `some (.ok ext)` when it runs to completion leaving `ext` as
`tmp_dict['platforms']`. The result is the load outcome paired with the
content of the module-level `platforms` variable when execution ends
(normally, or at the point the exception escapes — the merge loop at lines
891-892 runs only after a successful `exec`). -/
def moduleInit (base : Registry) (site : Option (Except String Registry)) :
    Except PyErr Unit × Registry :=
  match site with
  | none => (.ok (), base)
  | some (.error e) => (.error (.execError e), base)
  | some (.ok ext) => (.ok (), mergePlatforms base ext)

/-- One define directive (lines 43-44 of the source: any string prefixed
with `-` is removed from the set of defines to establish; others establish
a symbol, optionally with `NAME=value` syntax). -/
inductive DefineDirective where
  | add (name : String) (value : Option String)
  | sub (name : String)
deriving DecidableEq

/-- Split a character list at the first `=`: the name part and, when an `=`
is present, everything after it. -/
def splitEq : List Char → List Char × Option (List Char)
  | [] => ([], none)
  | c :: rest =>
      if c = '=' then ([], some rest)
      else
        let p := splitEq rest
        (c :: p.1, p.2)

/-- Modelled from the spec: parsing one directive string of a `defines`
list (§3 DefineDirective) — a leading `-` marks a subtractive directive
(any value after `=` is ignored); otherwise the text before the first `=`
is the symbol name and the text after it, if any, is its literal value.
No composition code exists in the source; only the comment at lines 43-44
documents the convention. -/
def parseDirective (s : String) : DefineDirective :=
  match s.data with
  | '-' :: rest => DefineDirective.sub (String.mk (splitEq rest).1)
  | cs =>
      let p := splitEq cs
      DefineDirective.add (String.mk p.1) (p.2.map String.mk)

/-- The composed define set: symbol name mapped to its optional literal
value, in insertion order. -/
abbrev DefineSet := PyDict (Option String)

/-- Remove every binding of name `n` (on a dict — no duplicate keys — this
is exactly Python's `del d[n]` when present, and the identity otherwise). -/
def removeDefine : DefineSet → String → DefineSet
  | [], _ => []
  | (k, v) :: rest, n =>
      if k = n then removeDefine rest n else (k, v) :: removeDefine rest n

/-- Modelled from the spec (§4.3 step 2): an additive directive
inserts/overwrites its name; a subtractive directive removes its name,
a no-op when absent. -/
def applyDirective (m : DefineSet) : DefineDirective → DefineSet
  | .add n v => dictSet m n v
  | .sub n => removeDefine m n

/-- Modelled from the spec (§4.3): fold the directives in sequence order
over the initially empty mapping. -/
def composeDirectives (ds : List DefineDirective) : DefineSet :=
  ds.foldl applyDirective []

/-- Modelled from the spec (§4.3): composition of a raw `defines` list. -/
def composeDefines (ds : List String) : DefineSet :=
  composeDirectives (ds.map parseDirective)

/-- The error of resolving an unknown platform id (spec §4.4/§7; the source
defines no such class — resolution is performed by downstream consumers). -/
structure UnknownPlatformError where
  platformId : String
deriving DecidableEq

/-- A resolved build description (spec §6: what the downstream consumer
receives). -/
structure ResolvedProfile where
  mcu : String
  programmer : String
  boardDirectory : String
  composedDefines : DefineSet
deriving DecidableEq

/-- Modelled from the spec (§4.4): `resolve(platformId)` returns the profile
of `platformId` in the given (merged) registry with its defines passed
through define composition, or fails with `UnknownPlatformError` when the id
is absent. The source holds only the registry data; resolution itself lives
in the build driver, outside this file's sources. -/
def resolve (reg : Registry) (id : String) : Except UnknownPlatformError ResolvedProfile :=
  match dictGet reg id with
  | some p =>
      .ok { mcu := p.mcu, programmer := p.programmer,
            boardDirectory := p.board_directory,
            composedDefines := composeDefines p.defines }
  | none => .error { platformId := id }

/-- Lines 895-897 of the source:
`list = ''` then `for key in platforms: list += key + ' '`. -/
def cliAccum (ks : List String) : String :=
  ks.foldl (fun acc k => acc ++ k ++ " ") ""

/-- Python's `s[:-1]`: the string without its final character (the empty
string stays empty). -/
def pyDropLastChar (s : String) : String := String.mk s.data.dropLast

/-- Line 898 of the source: the printed text `list[:-1]`. -/
def cliOutput (ks : List String) : String := pyDropLastChar (cliAccum ks)

/-- The character lists joined with a single space between consecutive
elements and no trailing separator. -/
def joinSpace : List (List Char) → List Char
  | [] => []
  | [x] => x
  | x :: y :: t => x ++ ' ' :: joinSpace (y :: t)
def baselinePlatforms : Registry := [
  ("mighty_one-hyper-zmax",
    { mcu := "atmega1280",
      programmer := "stk500v1",
      board_directory := "mighty_one",
      defines := [
      "BUILD_STATS",
      "AUTO_LEVEL",
      "USE_ZMAX_HOME",
      "PSTOP_ZMIN_LEVEL",
      "AUTO_LEVEL_IGNORE_ZMIN_ONBUILD",
      "HAS_RGB_LED",
      "EEPROM_MENU_ENABLE",
      "COOLING_FAN_PWM",
      "PLATFORM_SPLASH1_MSG=\\\"SF-Replicator1\\\"",
      "PLATFORM_THE_REPLICATOR_STR=\\\"Replicator 1\\\""] }),
  ("mighty_one-hyper",
    { mcu := "atmega1280",
      programmer := "stk500v1",
      board_directory := "mighty_one",
      defines := [
      "BUILD_STATS",
      "AUTO_LEVEL",
      "PSTOP_ZMIN_LEVEL",
      "AUTO_LEVEL_IGNORE_ZMIN_ONBUILD",
      "HAS_RGB_LED",
      "EEPROM_MENU_ENABLE",
      "COOLING_FAN_PWM",
      "PLATFORM_SPLASH1_MSG=\\\"SF-Replicator1\\\"",
      "PLATFORM_THE_REPLICATOR_STR=\\\"Replicator 1\\\""] }),
  ("mighty_one",
    { mcu := "atmega1280",
      programmer := "stk500v1",
      board_directory := "mighty_one",
      defines := [
      "HAS_RGB_LED",
      "EEPROM_MENU_ENABLE",
      "COOLING_FAN_PWM",
      "PLATFORM_SPLASH1_MSG=\\\"SF-Replicator1\\\"",
      "PLATFORM_THE_REPLICATOR_STR=\\\"Replicator 1\\\""] }),
  ("mighty_one-architect-hyper-zmax",
    { mcu := "atmega1280",
      programmer := "stk500v1",
      board_directory := "mighty_one",
      defines := [
      "AUTO_LEVEL",
      "PSTOP_ZMIN_LEVEL",
      "AUTO_LEVEL_IGNORE_ZMIN_ONBUILD",
      "SINGLE_EXTRUDER",
      "BUILD_STATS",
      "EEPROM_MENU_ENABLE",
      "PLATFORM_HBP_PRESENT=0",
      "COOLING_FAN_PWM",
      "PLATFORM_EXTRUDERS=1",
      "USE_ZMAX_HOME",
      "PLATFORM_SPLASH1_MSG=\\\"SF-Architect\\\"",
      "PLATFORM_THE_REPLICATOR_STR=\\\"Architect\\\""] }),
  ("mighty_one-architect-hyper",
    { mcu := "atmega1280",
      programmer := "stk500v1",
      board_directory := "mighty_one",
      defines := [
      "AUTO_LEVEL",
      "PSTOP_ZMIN_LEVEL",
      "AUTO_LEVEL_IGNORE_ZMIN_ONBUILD",
      "SINGLE_EXTRUDER",
      "BUILD_STATS",
      "EEPROM_MENU_ENABLE",
      "PLATFORM_HBP_PRESENT=0",
      "COOLING_FAN_PWM",
      "PLATFORM_EXTRUDERS=1",
      "PLATFORM_SPLASH1_MSG=\\\"SF-Architect\\\"",
      "PLATFORM_THE_REPLICATOR_STR=\\\"Architect\\\""] }),
  ("mighty_one-architect",
    { mcu := "atmega1280",
      programmer := "stk500v1",
      board_directory := "mighty_one",
      defines := [
      "SINGLE_EXTRUDER",
      "BUILD_STATS",
      "EEPROM_MENU_ENABLE",
      "PLATFORM_HBP_PRESENT=0",
      "COOLING_FAN_PWM",
      "PLATFORM_EXTRUDERS=1",
      "PLATFORM_SPLASH1_MSG=\\\"SF-Architect\\\"",
      "PLATFORM_THE_REPLICATOR_STR=\\\"Architect\\\""] }),
  ("mighty_one-corexy-hyper-zmax",
    { mcu := "atmega1280",
      programmer := "stk500v1",
      board_directory := "mighty_one",
      defines := [
      "AUTO_LEVEL",
      "PSTOP_ZMIN_LEVEL",
      "AUTO_LEVEL_IGNORE_ZMIN_ONBUILD",
      "CORE_XY",
      "HEATERS_ON_STEROIDS",
      "BUILD_STATS",
      "USE_ZMAX_HOME",
      "COOLING_FAN_PWM",
      "HAS_RGB_LED",
      "EEPROM_MENU_ENABLE",
      "PLATFORM_SPLASH1_MSG=\\\"SF-Rep1 CoreXY\\\"",
      "PLATFORM_THE_REPLICATOR_STR=\\\"Rep1 CoreXY\\\""] }),
  ("mighty_one-corexy-hyper",
    { mcu := "atmega1280",
      programmer := "stk500v1",
      board_directory := "mighty_one",
      defines := [
      "AUTO_LEVEL",
      "PSTOP_ZMIN_LEVEL",
      "AUTO_LEVEL_IGNORE_ZMIN_ONBUILD",
      "CORE_XY",
      "HEATERS_ON_STEROIDS",
      "BUILD_STATS",
      "COOLING_FAN_PWM",
      "HAS_RGB_LED",
      "EEPROM_MENU_ENABLE",
      "PLATFORM_SPLASH1_MSG=\\\"SF-Rep1 CoreXY\\\"",
      "PLATFORM_THE_REPLICATOR_STR=\\\"Rep1 CoreXY\\\""] }),
  ("mighty_one-corexy",
    { mcu := "atmega1280",
      programmer := "stk500v1",
      board_directory := "mighty_one",
      defines := [
      "CORE_XY",
      "HEATERS_ON_STEROIDS",
      "BUILD_STATS",
      "COOLING_FAN_PWM",
      "HAS_RGB_LED",
      "EEPROM_MENU_ENABLE",
      "PLATFORM_SPLASH1_MSG=\\\"SF-Rep1 CoreXY\\\"",
      "PLATFORM_THE_REPLICATOR_STR=\\\"Rep1 CoreXY\\\""] }),
  ("mighty_one-2560-zmax",
    { mcu := "atmega2560",
      programmer := "stk500v2",
      board_directory := "mighty_one",
      defines := [
      "BUILD_STATS",
      "ALTERNATE_UART",
      "AUTO_LEVEL",
      "AUTO_LEVEL_IGNORE_ZMIN_ONBUILD",
      "PSTOP_ZMIN_LEVEL",
      "HAS_RGB_LED",
      "COOLING_FAN_PWM",
      "USE_ZMAX_HOME",
      "PLATFORM_SPLASH1_MSG=\\\"SF-Replicator1\\\"",
      "PLATFORM_THE_REPLICATOR_STR=\\\"Replicator 1\\\"",
      "EEPROM_MENU_ENABLE",
      "RGB_LED_MENU"] }),
  ("mighty_one-2560",
    { mcu := "atmega2560",
      programmer := "stk500v2",
      board_directory := "mighty_one",
      defines := [
      "BUILD_STATS",
      "ALTERNATE_UART",
      "AUTO_LEVEL",
      "AUTO_LEVEL_IGNORE_ZMIN_ONBUILD",
      "PSTOP_ZMIN_LEVEL",
      "HAS_RGB_LED",
      "COOLING_FAN_PWM",
      "PLATFORM_SPLASH1_MSG=\\\"SF-Replicator1\\\"",
      "PLATFORM_THE_REPLICATOR_STR=\\\"Replicator 1\\\"",
      "EEPROM_MENU_ENABLE",
      "RGB_LED_MENU"] }),
  ("CTC_BizerMod-2560-zmax",
    { mcu := "atmega2560",
      programmer := "stk500v2",
      board_directory := "mighty_one",
      defines := [
      "BUILD_STATS",
      "ALTERNATE_UART",
      "AUTO_LEVEL",
      "USE_ZMAX_HOME",
      "PSTOP_ZMIN_LEVEL",
      "AUTO_LEVEL_IGNORE_ZMIN_ONBUILD",
      "COOLING_FAN_PWM",
      "PLATFORM_SPLASH1_MSG=\\\"SF-CTC Bizer\\\"",
      "PLATFORM_THE_REPLICATOR_STR=\\\"CTC Bizer v2\\\"",
      "EEPROM_MENU_ENABLE"] }),
  ("CTC_BizerMod-2560",
    { mcu := "atmega2560",
      programmer := "stk500v2",
      board_directory := "mighty_one",
      defines := [
      "BUILD_STATS",
      "ALTERNATE_UART",
      "AUTO_LEVEL",
      "PSTOP_ZMIN_LEVEL",
      "AUTO_LEVEL_IGNORE_ZMIN_ONBUILD",
      "COOLING_FAN_PWM",
      "PLATFORM_SPLASH1_MSG=\\\"SF-CTC Bizer\\\"",
      "PLATFORM_THE_REPLICATOR_STR=\\\"CTC Bizer v2\\\"",
      "EEPROM_MENU_ENABLE"] }),
  ("CTC_BondtechDualDrive-2560",
    { mcu := "atmega2560",
      programmer := "stk500v2",
      board_directory := "mighty_one",
      defines := [
      "BUILD_STATS",
      "ALTERNATE_UART",
      "AUTO_LEVEL",
      "PSTOP_ZMIN_LEVEL",
      "AUTO_LEVEL_IGNORE_ZMIN_ONBUILD",
      "COOLING_FAN_PWM",
      "PLATFORM_SPLASH1_MSG=\\\"SF-CTC Bizer \\\"",
      "USE_ZMAX_HOME",
      "PLATFORM_THE_REPLICATOR_STR=\\\"CTC Bizer v2\\\"",
      "PLATFORM_TOOLHEAD_OFFSET_X=3624",
      "PLATFORM_AXIS_STEPS_PER_MM=\x7b94139704, 94139704, 400000000, 147773066, 147773066\x7d",
      "EEPROM_MENU_ENABLE"] }),
  ("mighty_one-2560-corexy-zmax",
    { mcu := "atmega2560",
      programmer := "stk500v2",
      board_directory := "mighty_one",
      defines := [
      "CORE_XY",
      "BUILD_STATS",
      "ALTERNATE_UART",
      "AUTO_LEVEL_IGNORE_ZMIN_ONBUILD",
      "HEATERS_ON_STEROIDS",
      "AUTO_LEVEL",
      "HAS_RGB_LED",
      "PSTOP_ZMIN_LEVEL",
      "COOLING_FAN_PWM",
      "USE_ZMAX_HOME",
      "PLATFORM_SPLASH1_MSG=\\\"SF-Rep1 CoreXY\\\"",
      "PLATFORM_THE_REPLICATOR_STR=\\\"Rep1 CoreXY\\\"",
      "EEPROM_MENU_ENABLE",
      "RGB_LED_MENU"] }),
  ("mighty_one-2560-corexy",
    { mcu := "atmega2560",
      programmer := "stk500v2",
      board_directory := "mighty_one",
      defines := [
      "CORE_XY",
      "BUILD_STATS",
      "ALTERNATE_UART",
      "AUTO_LEVEL_IGNORE_ZMIN_ONBUILD",
      "HEATERS_ON_STEROIDS",
      "AUTO_LEVEL",
      "HAS_RGB_LED",
      "PSTOP_ZMIN_LEVEL",
      "COOLING_FAN_PWM",
      "PLATFORM_SPLASH1_MSG=\\\"SF-Rep1 CoreXY\\\"",
      "PLATFORM_THE_REPLICATOR_STR=\\\"Rep1 CoreXY\\\"",
      "EEPROM_MENU_ENABLE",
      "RGB_LED_MENU"] }),
  ("mighty_one-2560-clone-r1-zmax",
    { mcu := "atmega2560",
      programmer := "stk500v2",
      board_directory := "mighty_one",
      defines := [
      "CORE_XY",
      "BUILD_STATS",
      "ALTERNATE_UART",
      "AUTO_LEVEL_IGNORE_ZMIN_ONBUILD",
      "HEATERS_ON_STEROIDS",
      "AUTO_LEVEL",
      "HAS_RGB_LED",
      "PSTOP_ZMIN_LEVEL",
      "COOLING_FAN_PWM",
      "USE_ZMAX_HOME",
      "PLATFORM_SPLASH1_MSG=\\\"SF-Clone R1 \\\"",
      "PLATFORM_THE_REPLICATOR_STR=\\\"CloneR1\\\"",
      "PLATFORM_X_OFFSET_STEPS=14444L",
      "PLATFORM_Y_OFFSET_STEPS=8667L",
      "PLATFORM_AXIS_LENGTHS=\x7b300L, 195L, 210L, 100000L, 100000L\x7d",
      "PLATFORM_AXIS_STEPS_PER_MM=\x7b88888889, 88888889, 400000000, 96275202, 96275202\x7d",
      "EEPROM_MENU_ENABLE",
      "CLONE_R1",
      "RGB_LED_MENU"] }),
  ("mighty_one-2560-clone-r1",
    { mcu := "atmega2560",
      programmer := "stk500v2",
      board_directory := "mighty_one",
      defines := [
      "CORE_XY",
      "BUILD_STATS",
      "ALTERNATE_UART",
      "AUTO_LEVEL_IGNORE_ZMIN_ONBUILD",
      "HEATERS_ON_STEROIDS",
      "AUTO_LEVEL",
      "HAS_RGB_LED",
      "PSTOP_ZMIN_LEVEL",
      "COOLING_FAN_PWM",
      "PLATFORM_SPLASH1_MSG=\\\"SF-Clone R1 \\\"",
      "PLATFORM_THE_REPLICATOR_STR=\\\"CloneR1\\\"",
      "PLATFORM_X_OFFSET_STEPS=14444L",
      "PLATFORM_Y_OFFSET_STEPS=8667L",
      "PLATFORM_AXIS_LENGTHS=\x7b300L, 195L, 210L, 100000L, 100000L\x7d",
      "PLATFORM_AXIS_STEPS_PER_MM=\x7b88888889, 88888889, 400000000, 96275202, 96275202\x7d",
      "EEPROM_MENU_ENABLE",
      "CLONE_R1",
      "RGB_LED_MENU"] }),
  ("mighty_one-2560-max31855-corexy-zmax",
    { mcu := "atmega2560",
      programmer := "stk500v2",
      board_directory := "mighty_one",
      defines := [
      "CORE_XY",
      "BUILD_STATS",
      "ALTERNATE_UART",
      "USE_ZMAX_HOME",
      "HAS_RGB_LED",
      "HEATERS_ON_STEROIDS",
      "AUTO_LEVEL",
      "MAX31855",
      "PSTOP_ZMIN_LEVEL",
      "COOLING_FAN_PWM",
      "PLATFORM_SPLASH1_MSG=\\\"SF-Rep1 CoreXY\\\"",
      "PLATFORM_THE_REPLICATOR_STR=\\\"Rep1 CoreXY\\\"",
      "EEPROM_MENU_ENABLE",
      "RGB_LED_MENU",
      "AUTO_LEVEL_IGNORE_ZMIN_ONBUILD"] }),
  ("mighty_one-2560-max31855-corexy",
    { mcu := "atmega2560",
      programmer := "stk500v2",
      board_directory := "mighty_one",
      defines := [
      "CORE_XY",
      "BUILD_STATS",
      "ALTERNATE_UART",
      "HAS_RGB_LED",
      "HEATERS_ON_STEROIDS",
      "AUTO_LEVEL",
      "MAX31855",
      "PSTOP_ZMIN_LEVEL",
      "COOLING_FAN_PWM",
      "PLATFORM_SPLASH1_MSG=\\\"SF-Rep1 CoreXY\\\"",
      "PLATFORM_THE_REPLICATOR_STR=\\\"Rep1 CoreXY\\\"",
      "EEPROM_MENU_ENABLE",
      "RGB_LED_MENU",
      "AUTO_LEVEL_IGNORE_ZMIN_ONBUILD"] }),
  ("mighty_one-2560-max31855-zmax",
    { mcu := "atmega2560",
      programmer := "stk500v2",
      board_directory := "mighty_one",
      defines := [
      "BUILD_STATS",
      "ALTERNATE_UART",
      "MAX31855",
      "USE_ZMAX_HOME",
      "COOLING_FAN_PWM",
      "AUTO_LEVEL",
      "PSTOP_ZMIN_LEVEL",
      "HAS_RGB_LED",
      "AUTO_LEVEL_IGNORE_ZMIN_ONBUILD",
      "PLATFORM_SPLASH1_MSG=\\\"SF-Replicator1\\\"",
      "PLATFORM_THE_REPLICATOR_STR=\\\"Replicator 1\\\"",
      "EEPROM_MENU_ENABLE",
      "RGB_LED_MENU"] }),
  ("mighty_one-2560-max31855",
    { mcu := "atmega2560",
      programmer := "stk500v2",
      board_directory := "mighty_one",
      defines := [
      "BUILD_STATS",
      "ALTERNATE_UART",
      "MAX31855",
      "COOLING_FAN_PWM",
      "AUTO_LEVEL",
      "PSTOP_ZMIN_LEVEL",
      "HAS_RGB_LED",
      "AUTO_LEVEL_IGNORE_ZMIN_ONBUILD",
      "PLATFORM_SPLASH1_MSG=\\\"SF-Replicator1\\\"",
      "PLATFORM_THE_REPLICATOR_STR=\\\"Replicator 1\\\"",
      "EEPROM_MENU_ENABLE",
      "RGB_LED_MENU"] }),
  ("mighty_two-hyper-zmax",
    { mcu := "atmega1280",
      programmer := "stk500v1",
      board_directory := "mighty_two",
      defines := [
      "AUTO_LEVEL",
      "PSTOP_ZMIN_LEVEL",
      "AUTO_LEVEL_IGNORE_ZMIN_ONBUILD",
      "SINGLE_EXTRUDER",
      "BUILD_STATS",
      "HAS_RGB_LED",
      "COOLING_FAN_PWM",
      "USE_ZMAX_HOME",
      "PLATFORM_SPLASH1_MSG=\\\"SF-Replicator2\\\"",
      "PLATFORM_TOOLHEAD_OFFSET_X=3100",
      "PLATFORM_THE_REPLICATOR_STR=\\\"Replicator 2\\\"",
      "PLATFORM_MACHINE_ID=0xB015",
      "PLATFORM_X_OFFSET_STEPS=13463L",
      "PLATFORM_Y_OFFSET_STEPS=6643L",
      "PLATFORM_HBP_PRESENT=0",
      "PLATFORM_AXIS_LENGTHS=\x7b285L, 152L, 155L, 100000L, 100000L\x7d",
      "PLATFORM_AXIS_STEPS_PER_MM=\x7b88573186, 88573186, 400000000, 96275202, 96275202\x7d",
      "EEPROM_MENU_ENABLE"] }),
  ("mighty_two-hyper",
    { mcu := "atmega1280",
      programmer := "stk500v1",
      board_directory := "mighty_two",
      defines := [
      "AUTO_LEVEL",
      "PSTOP_ZMIN_LEVEL",
      "AUTO_LEVEL_IGNORE_ZMIN_ONBUILD",
      "SINGLE_EXTRUDER",
      "BUILD_STATS",
      "HAS_RGB_LED",
      "COOLING_FAN_PWM",
      "PLATFORM_SPLASH1_MSG=\\\"SF-Replicator2\\\"",
      "PLATFORM_TOOLHEAD_OFFSET_X=3100",
      "PLATFORM_THE_REPLICATOR_STR=\\\"Replicator 2\\\"",
      "PLATFORM_MACHINE_ID=0xB015",
      "PLATFORM_X_OFFSET_STEPS=13463L",
      "PLATFORM_Y_OFFSET_STEPS=6643L",
      "PLATFORM_HBP_PRESENT=0",
      "PLATFORM_AXIS_LENGTHS=\x7b285L, 152L, 155L, 100000L, 100000L\x7d",
      "PLATFORM_AXIS_STEPS_PER_MM=\x7b88573186, 88573186, 400000000, 96275202, 96275202\x7d",
      "EEPROM_MENU_ENABLE"] }),
  ("mighty_two-corexy-hyper-zmax",
    { mcu := "atmega1280",
      programmer := "stk500v1",
      board_directory := "mighty_two",
      defines := [
      "AUTO_LEVEL",
      "PSTOP_ZMIN_LEVEL",
      "AUTO_LEVEL_IGNORE_ZMIN_ONBUILD",
      "CORE_XY",
      "SINGLE_EXTRUDER",
      "BUILD_STATS",
      "HAS_RGB_LED",
      "COOLING_FAN_PWM",
      "USE_ZMAX_HOME",
      "PLATFORM_SPLASH1_MSG=\\\"SF-Rep2 CoreXY\\\"",
      "PLATFORM_TOOLHEAD_OFFSET_X=3100",
      "PLATFORM_THE_REPLICATOR_STR=\\\"Rep2 CoreXY\\\"",
      "PLATFORM_MACHINE_ID=0xB015",
      "PLATFORM_X_OFFSET_STEPS=13463L",
      "PLATFORM_Y_OFFSET_STEPS=6643L",
      "PLATFORM_AXIS_LENGTHS=\x7b285L, 152L, 155L, 100000L, 100000L\x7d",
      "PLATFORM_AXIS_STEPS_PER_MM=\x7b88573186, 88573186, 400000000, 96275202, 96275202\x7d",
      "EEPROM_MENU_ENABLE"] }),
  ("mighty_two-corexy-hyper",
    { mcu := "atmega1280",
      programmer := "stk500v1",
      board_directory := "mighty_two",
      defines := [
      "AUTO_LEVEL",
      "PSTOP_ZMIN_LEVEL",
      "AUTO_LEVEL_IGNORE_ZMIN_ONBUILD",
      "CORE_XY",
      "SINGLE_EXTRUDER",
      "BUILD_STATS",
      "HAS_RGB_LED",
      "COOLING_FAN_PWM",
      "PLATFORM_SPLASH1_MSG=\\\"SF-Rep2 CoreXY\\\"",
      "PLATFORM_TOOLHEAD_OFFSET_X=3100",
      "PLATFORM_THE_REPLICATOR_STR=\\\"Rep2 CoreXY\\\"",
      "PLATFORM_MACHINE_ID=0xB015",
      "PLATFORM_X_OFFSET_STEPS=13463L",
      "PLATFORM_Y_OFFSET_STEPS=6643L",
      "PLATFORM_AXIS_LENGTHS=\x7b285L, 152L, 155L, 100000L, 100000L\x7d",
      "PLATFORM_AXIS_STEPS_PER_MM=\x7b88573186, 88573186, 400000000, 96275202, 96275202\x7d",
      "EEPROM_MENU_ENABLE"] }),
  ("mighty_two",
    { mcu := "atmega1280",
      programmer := "stk500v1",
      board_directory := "mighty_two",
      defines := [
      "SINGLE_EXTRUDER",
      "BUILD_STATS",
      "HAS_RGB_LED",
      "COOLING_FAN_PWM",
      "PLATFORM_SPLASH1_MSG=\\\"SF-Replicator2\\\"",
      "PLATFORM_TOOLHEAD_OFFSET_X=3100",
      "PLATFORM_THE_REPLICATOR_STR=\\\"Replicator 2\\\"",
      "PLATFORM_MACHINE_ID=0xB015",
      "PLATFORM_X_OFFSET_STEPS=13463L",
      "PLATFORM_Y_OFFSET_STEPS=6643L",
      "PLATFORM_HBP_PRESENT=0",
      "PLATFORM_AXIS_LENGTHS=\x7b285L, 152L, 155L, 100000L, 100000L\x7d",
      "PLATFORM_AXIS_STEPS_PER_MM=\x7b88573186, 88573186, 400000000, 96275202, 96275202\x7d",
      "EEPROM_MENU_ENABLE"] }),
  ("mighty_two-corexy",
    { mcu := "atmega1280",
      programmer := "stk500v1",
      board_directory := "mighty_two",
      defines := [
      "CORE_XY",
      "SINGLE_EXTRUDER",
      "BUILD_STATS",
      "HAS_RGB_LED",
      "COOLING_FAN_PWM",
      "PLATFORM_SPLASH1_MSG=\\\"SF-Rep2 CoreXY\\\"",
      "PLATFORM_TOOLHEAD_OFFSET_X=3100",
      "PLATFORM_THE_REPLICATOR_STR=\\\"Rep2 CoreXY\\\"",
      "PLATFORM_MACHINE_ID=0xB015",
      "PLATFORM_X_OFFSET_STEPS=13463L",
      "PLATFORM_Y_OFFSET_STEPS=6643L",
      "PLATFORM_AXIS_LENGTHS=\x7b285L, 152L, 155L, 100000L, 100000L\x7d",
      "PLATFORM_AXIS_STEPS_PER_MM=\x7b88573186, 88573186, 400000000, 96275202, 96275202\x7d",
      "EEPROM_MENU_ENABLE"] }),
  ("mighty_two-2560-zmax",
    { mcu := "atmega2560",
      programmer := "stk500v2",
      board_directory := "mighty_two",
      defines := [
      "SINGLE_EXTRUDER",
      "BUILD_STATS",
      "ALTERNATE_UART",
      "COOLING_FAN_PWM",
      "USE_ZMAX_HOME",
      "PLATFORM_SPLASH1_MSG=\\\"SF-Replicator2\\\"",
      "PLATFORM_TOOLHEAD_OFFSET_X=3100",
      "PLATFORM_THE_REPLICATOR_STR=\\\"Replicator 2\\\"",
      "PLATFORM_MACHINE_ID=0xB015",
      "PLATFORM_X_OFFSET_STEPS=13463L",
      "PLATFORM_Y_OFFSET_STEPS=6643L",
      "PLATFORM_HBP_PRESENT=0",
      "PLATFORM_AXIS_LENGTHS=\x7b285L, 152L, 155L, 100000L, 100000L\x7d",
      "PLATFORM_AXIS_STEPS_PER_MM=\x7b88573186, 88573186, 400000000, 96275202, 96275202\x7d",
      "AUTO_LEVEL",
      "AUTO_LEVEL_IGNORE_ZMIN_ONBUILD",
      "PSTOP_ZMIN_LEVEL",
      "HAS_RGB_LED",
      "EEPROM_MENU_ENABLE",
      "RGB_LED_MENU"] }),
  ("mighty_two-2560",
    { mcu := "atmega2560",
      programmer := "stk500v2",
      board_directory := "mighty_two",
      defines := [
      "SINGLE_EXTRUDER",
      "BUILD_STATS",
      "ALTERNATE_UART",
      "COOLING_FAN_PWM",
      "PLATFORM_SPLASH1_MSG=\\\"SF-Replicator2\\\"",
      "PLATFORM_TOOLHEAD_OFFSET_X=3100",
      "PLATFORM_THE_REPLICATOR_STR=\\\"Replicator 2\\\"",
      "PLATFORM_MACHINE_ID=0xB015",
      "PLATFORM_X_OFFSET_STEPS=13463L",
      "PLATFORM_Y_OFFSET_STEPS=6643L",
      "PLATFORM_HBP_PRESENT=0",
      "PLATFORM_AXIS_LENGTHS=\x7b285L, 152L, 155L, 100000L, 100000L\x7d",
      "PLATFORM_AXIS_STEPS_PER_MM=\x7b88573186, 88573186, 400000000, 96275202, 96275202\x7d",
      "AUTO_LEVEL",
      "AUTO_LEVEL_IGNORE_ZMIN_ONBUILD",
      "PSTOP_ZMIN_LEVEL",
      "HAS_RGB_LED",
      "EEPROM_MENU_ENABLE",
      "RGB_LED_MENU"] }),
  ("mighty_twox-hyper-zmax",
    { mcu := "atmega1280",
      programmer := "stk500v1",
      board_directory := "mighty_two",
      defines := [
      "AUTO_LEVEL",
      "PSTOP_ZMIN_LEVEL",
      "AUTO_LEVEL_IGNORE_ZMIN_ONBUILD",
      "BUILD_STATS",
      "HAS_RGB_LED",
      "COOLING_FAN_PWM",
      "USE_ZMAX_HOME",
      "PLATFORM_SPLASH1_MSG=\\\"SF-Rep 2X\\\"",
      "PLATFORM_TOOLHEAD_OFFSET_X=3100",
      "PLATFORM_THE_REPLICATOR_STR=\\\"Replicator 2X\\\"",
      "PLATFORM_MACHINE_ID=0xB017",
      "PLATFORM_X_OFFSET_STEPS=13463L",
      "PLATFORM_Y_OFFSET_STEPS=6643L",
      "PLATFORM_AXIS_LENGTHS=\x7b246L, 152L, 155L, 100000L, 100000L\x7d",
      "PLATFORM_AXIS_STEPS_PER_MM=\x7b88573186, 88573186, 400000000, 96275202, 96275202\x7d",
      "EEPROM_MENU_ENABLE"] }),
  ("mighty_twox-hyper",
    { mcu := "atmega1280",
      programmer := "stk500v1",
      board_directory := "mighty_two",
      defines := [
      "AUTO_LEVEL",
      "PSTOP_ZMIN_LEVEL",
      "AUTO_LEVEL_IGNORE_ZMIN_ONBUILD",
      "BUILD_STATS",
      "HAS_RGB_LED",
      "COOLING_FAN_PWM",
      "PLATFORM_SPLASH1_MSG=\\\"SF-Rep 2X\\\"",
      "PLATFORM_TOOLHEAD_OFFSET_X=3100",
      "PLATFORM_THE_REPLICATOR_STR=\\\"Replicator 2X\\\"",
      "PLATFORM_MACHINE_ID=0xB017",
      "PLATFORM_X_OFFSET_STEPS=13463L",
      "PLATFORM_Y_OFFSET_STEPS=6643L",
      "PLATFORM_AXIS_LENGTHS=\x7b246L, 152L, 155L, 100000L, 100000L\x7d",
      "PLATFORM_AXIS_STEPS_PER_MM=\x7b88573186, 88573186, 400000000, 96275202, 96275202\x7d",
      "EEPROM_MENU_ENABLE"] }),
  ("mighty_twox",
    { mcu := "atmega1280",
      programmer := "stk500v1",
      board_directory := "mighty_two",
      defines := [
      "BUILD_STATS",
      "HAS_RGB_LED",
      "COOLING_FAN_PWM",
      "PLATFORM_SPLASH1_MSG=\\\"SF-Rep 2X\\\"",
      "PLATFORM_TOOLHEAD_OFFSET_X=3100",
      "PLATFORM_THE_REPLICATOR_STR=\\\"Replicator 2X\\\"",
      "PLATFORM_MACHINE_ID=0xB017",
      "PLATFORM_X_OFFSET_STEPS=13463L",
      "PLATFORM_Y_OFFSET_STEPS=6643L",
      "PLATFORM_AXIS_LENGTHS=\x7b246L, 152L, 155L, 100000L, 100000L\x7d",
      "PLATFORM_AXIS_STEPS_PER_MM=\x7b88573186, 88573186, 400000000, 96275202, 96275202\x7d",
      "EEPROM_MENU_ENABLE"] }),
  ("mighty_twox-2560-zmax",
    { mcu := "atmega2560",
      programmer := "stk500v2",
      board_directory := "mighty_two",
      defines := [
      "BUILD_STATS",
      "ALTERNATE_UART",
      "AUTO_LEVEL",
      "AUTO_LEVEL_IGNORE_ZMIN_ONBUILD",
      "PSTOP_ZMIN_LEVEL",
      "HAS_RGB_LED",
      "COOLING_FAN_PWM",
      "USE_ZMAX_HOME",
      "PLATFORM_SPLASH1_MSG=\\\"SF-Rep 2X\\\"",
      "PLATFORM_TOOLHEAD_OFFSET_X=3100",
      "PLATFORM_THE_REPLICATOR_STR=\\\"Replicator 2X\\\"",
      "PLATFORM_MACHINE_ID=0xB017",
      "PLATFORM_X_OFFSET_STEPS=13463L",
      "PLATFORM_Y_OFFSET_STEPS=6643L",
      "PLATFORM_AXIS_LENGTHS=\x7b246L, 152L, 155L, 100000L, 100000L\x7d",
      "PLATFORM_AXIS_STEPS_PER_MM=\x7b88573186, 88573186, 400000000, 96275202, 96275202\x7d",
      "EEPROM_MENU_ENABLE",
      "RGB_LED_MENU"] }),
  ("mighty_twox-2560",
    { mcu := "atmega2560",
      programmer := "stk500v2",
      board_directory := "mighty_two",
      defines := [
      "BUILD_STATS",
      "ALTERNATE_UART",
      "AUTO_LEVEL",
      "AUTO_LEVEL_IGNORE_ZMIN_ONBUILD",
      "PSTOP_ZMIN_LEVEL",
      "HAS_RGB_LED",
      "COOLING_FAN_PWM",
      "PLATFORM_SPLASH1_MSG=\\\"SF-Rep 2X\\\"",
      "PLATFORM_TOOLHEAD_OFFSET_X=3100",
      "PLATFORM_THE_REPLICATOR_STR=\\\"Replicator 2X\\\"",
      "PLATFORM_MACHINE_ID=0xB017",
      "PLATFORM_X_OFFSET_STEPS=13463L",
      "PLATFORM_Y_OFFSET_STEPS=6643L",
      "PLATFORM_AXIS_LENGTHS=\x7b246L, 152L, 155L, 100000L, 100000L\x7d",
      "PLATFORM_AXIS_STEPS_PER_MM=\x7b88573186, 88573186, 400000000, 96275202, 96275202\x7d",
      "EEPROM_MENU_ENABLE",
      "RGB_LED_MENU"] }),
  ("ff_creator-hyper-zmax",
    { mcu := "atmega1280",
      programmer := "stk500v1",
      board_directory := "mighty_one",
      defines := [
      "AUTO_LEVEL",
      "PSTOP_ZMIN_LEVEL",
      "AUTO_LEVEL_IGNORE_ZMIN_ONBUILD",
      "BUILD_STATS",
      "HEATERS_ON_STEROIDS",
      "HAS_RGB_LED",
      "COOLING_FAN_PWM",
      "PLATFORM_SPLASH1_MSG=\\\"SF-FF Creator\\\"",
      "USE_ZMAX_HOME",
      "PLATFORM_TOOLHEAD_OFFSET_X=3201",
      "PLATFORM_THE_REPLICATOR_STR=\\\"FF Creator\\\"",
      "EEPROM_MENU_ENABLE"] }),
  ("ff_creator-hyper",
    { mcu := "atmega1280",
      programmer := "stk500v1",
      board_directory := "mighty_one",
      defines := [
      "AUTO_LEVEL",
      "PSTOP_ZMIN_LEVEL",
      "AUTO_LEVEL_IGNORE_ZMIN_ONBUILD",
      "BUILD_STATS",
      "HEATERS_ON_STEROIDS",
      "HAS_RGB_LED",
      "COOLING_FAN_PWM",
      "PLATFORM_SPLASH1_MSG=\\\"SF-FF Creator\\\"",
      "PLATFORM_TOOLHEAD_OFFSET_X=3201",
      "PLATFORM_THE_REPLICATOR_STR=\\\"FF Creator\\\"",
      "EEPROM_MENU_ENABLE"] }),
  ("ff_creator",
    { mcu := "atmega1280",
      programmer := "stk500v1",
      board_directory := "mighty_one",
      defines := [
      "HEATERS_ON_STEROIDS",
      "HAS_RGB_LED",
      "COOLING_FAN_PWM",
      "PLATFORM_SPLASH1_MSG=\\\"SF-Creator\\\"",
      "PLATFORM_TOOLHEAD_OFFSET_X=3201",
      "PLATFORM_THE_REPLICATOR_STR=\\\"FF Creator\\\"",
      "EEPROM_MENU_ENABLE"] }),
  ("ff_creator-2560-zmax",
    { mcu := "atmega2560",
      programmer := "stk500v2",
      board_directory := "mighty_one",
      defines := [
      "BUILD_STATS",
      "ALTERNATE_UART",
      "COOLING_FAN_PWM",
      "USE_ZMAX_HOME",
      "PLATFORM_SPLASH1_MSG=\\\"SF-FF Creator\\\"",
      "PLATFORM_TOOLHEAD_OFFSET_X=3201",
      "PLATFORM_THE_REPLICATOR_STR=\\\"FF Creator\\\"",
      "HEATERS_ON_STEROIDS",
      "AUTO_LEVEL",
      "AUTO_LEVEL_IGNORE_ZMIN_ONBUILD",
      "PSTOP_ZMIN_LEVEL",
      "HAS_RGB_LED",
      "RGB_LED_MENU",
      "EEPROM_MENU_ENABLE"] }),
  ("ff_creator-2560",
    { mcu := "atmega2560",
      programmer := "stk500v2",
      board_directory := "mighty_one",
      defines := [
      "BUILD_STATS",
      "ALTERNATE_UART",
      "COOLING_FAN_PWM",
      "PLATFORM_SPLASH1_MSG=\\\"SF-FF Creator\\\"",
      "PLATFORM_TOOLHEAD_OFFSET_X=3201",
      "PLATFORM_THE_REPLICATOR_STR=\\\"FF Creator\\\"",
      "HEATERS_ON_STEROIDS",
      "AUTO_LEVEL",
      "AUTO_LEVEL_IGNORE_ZMIN_ONBUILD",
      "PSTOP_ZMIN_LEVEL",
      "HAS_RGB_LED",
      "RGB_LED_MENU",
      "EEPROM_MENU_ENABLE"] }),
  ("ff_creatorx-2560-zmax",
    { mcu := "atmega2560",
      programmer := "stk500v2",
      board_directory := "mighty_one",
      defines := [
      "BUILD_STATS",
      "ALTERNATE_UART",
      "HBP_SOFTPWM",
      "COOLING_FAN_PWM",
      "USE_ZMAX_HOME",
      "PLATFORM_SPLASH1_MSG=\\\"SF-FF CreatorX\\\"",
      "PLATFORM_TOOLHEAD_OFFSET_X=3201",
      "PLATFORM_THE_REPLICATOR_STR=\\\"Creator X / Pro\\\"",
      "HEATERS_ON_STEROIDS",
      "AUTO_LEVEL",
      "AUTO_LEVEL_IGNORE_ZMIN_ONBUILD",
      "PSTOP_ZMIN_LEVEL",
      "HAS_RGB_LED",
      "RGB_LED_MENU",
      "EEPROM_MENU_ENABLE"] }),
  ("ff_creatorx-2560",
    { mcu := "atmega2560",
      programmer := "stk500v2",
      board_directory := "mighty_one",
      defines := [
      "BUILD_STATS",
      "ALTERNATE_UART",
      "HBP_SOFTPWM",
      "COOLING_FAN_PWM",
      "PLATFORM_SPLASH1_MSG=\\\"SF-FF CreatorX\\\"",
      "PLATFORM_TOOLHEAD_OFFSET_X=3201",
      "PLATFORM_THE_REPLICATOR_STR=\\\"Creator X / Pro\\\"",
      "HEATERS_ON_STEROIDS",
      "AUTO_LEVEL",
      "AUTO_LEVEL_IGNORE_ZMIN_ONBUILD",
      "PSTOP_ZMIN_LEVEL",
      "HAS_RGB_LED",
      "RGB_LED_MENU",
      "EEPROM_MENU_ENABLE"] }),
  ("wanhao_dup4-hyper-zmax",
    { mcu := "atmega1280",
      programmer := "stk500v1",
      board_directory := "mighty_one",
      defines := [
      "AUTO_LEVEL",
      "PSTOP_ZMIN_LEVEL",
      "AUTO_LEVEL_IGNORE_ZMIN_ONBUILD",
      "USE_ZMAX_HOME",
      "BUILD_STATS",
      "HEATERS_ON_STEROIDS",
      "COOLING_FAN_PWM",
      "USE_ZMAX_HOME",
      "PLATFORM_SPLASH1_MSG=\\\"SF-Wanhao Dup4\\\"",
      "PLATFORM_THE_REPLICATOR_STR=\\\"Wanhao Duplicatr\\\"",
      "PLATFORM_TOOLHEAD_OFFSET_X=3201",
      "PLATFORM_X_OFFSET_STEPS=13763L",
      "PLATFORM_Y_OFFSET_STEPS=6919L",
      "HAS_RGB_LED",
      "EEPROM_MENU_ENABLE"] }),
  ("wanhao_dup4-hyper",
    { mcu := "atmega1280",
      programmer := "stk500v1",
      board_directory := "mighty_one",
      defines := [
      "AUTO_LEVEL",
      "PSTOP_ZMIN_LEVEL",
      "AUTO_LEVEL_IGNORE_ZMIN_ONBUILD",
      "BUILD_STATS",
      "HEATERS_ON_STEROIDS",
      "COOLING_FAN_PWM",
      "PLATFORM_SPLASH1_MSG=\\\"SF-Wanhao Dup4\\\"",
      "PLATFORM_THE_REPLICATOR_STR=\\\"Wanhao Duplicatr\\\"",
      "PLATFORM_TOOLHEAD_OFFSET_X=3201",
      "PLATFORM_X_OFFSET_STEPS=13763L",
      "PLATFORM_Y_OFFSET_STEPS=6919L",
      "HAS_RGB_LED",
      "EEPROM_MENU_ENABLE"] }),
  ("zyyx-1280-hyper",
    { mcu := "atmega1280",
      programmer := "stk500v1",
      board_directory := "mighty_one",
      defines := [
      "AUTO_LEVEL",
      "PSTOP_ZMIN_LEVEL",
      "AUTO_LEVEL_IGNORE_ZMIN_ONBUILD",
      "BUILD_STATS",
      "SINGLE_EXTRUDER",
      "ZYYX_3D_PRINTER",
      "HEATERS_ON_STEROIDS",
      "COOLING_FAN_PWM",
      "PLATFORM_SPLASH1_MSG=\\\"SF-ZYYX 3DP\\\"",
      "PLATFORM_THE_REPLICATOR_STR=\\\"ZYYX 3D Printer\\\"",
      "PLATFORM_X_OFFSET_STEPS=11957L",
      "PLATFORM_Y_OFFSET_STEPS=10186L",
      "PLATFORM_HBP_PRESENT=0",
      "PLATFORM_AXIS_LENGTHS=\x7b270L, 230L, 195L, 100000L, 100000L\x7d",
      "PLATFORM_AXIS_STEPS_PER_MM=\x7b88573186, 88573186, 400000000, 96275202, 96275202\x7d",
      "AUTO_LEVEL",
      "AUTO_LEVEL_ZYYX",
      "PSTOP_ZMIN_LEVEL"] }),
  ("wanhao_dup4",
    { mcu := "atmega1280",
      programmer := "stk500v1",
      board_directory := "mighty_one",
      defines := [
      "HEATERS_ON_STEROIDS",
      "COOLING_FAN_PWM",
      "PLATFORM_SPLASH1_MSG=\\\"SF-Wanhao Dup4\\\"",
      "PLATFORM_THE_REPLICATOR_STR=\\\"Wanhao Duplicatr\\\"",
      "PLATFORM_TOOLHEAD_OFFSET_X=3201",
      "PLATFORM_X_OFFSET_STEPS=13763L",
      "PLATFORM_Y_OFFSET_STEPS=6919L",
      "HAS_RGB_LED",
      "EEPROM_MENU_ENABLE"] }),
  ("zyyx-1280",
    { mcu := "atmega1280",
      programmer := "stk500v1",
      board_directory := "mighty_one",
      defines := [
      "SINGLE_EXTRUDER",
      "ZYYX_3D_PRINTER",
      "HEATERS_ON_STEROIDS",
      "COOLING_FAN_PWM",
      "PLATFORM_SPLASH1_MSG=\\\"SF-ZYYX 3DP\\\"",
      "PLATFORM_THE_REPLICATOR_STR=\\\"ZYYX 3D Printer\\\"",
      "PLATFORM_X_OFFSET_STEPS=11957L",
      "PLATFORM_Y_OFFSET_STEPS=10186L",
      "PLATFORM_HBP_PRESENT=0",
      "PLATFORM_AXIS_LENGTHS=\x7b270L, 230L, 195L, 100000L, 100000L\x7d",
      "PLATFORM_AXIS_STEPS_PER_MM=\x7b88573186, 88573186, 400000000, 96275202, 96275202\x7d",
      "AUTO_LEVEL",
      "AUTO_LEVEL_ZYYX",
      "PSTOP_ZMIN_LEVEL"] }),
  ("zyyx-2560",
    { mcu := "atmega2560",
      programmer := "stk500v2",
      board_directory := "mighty_one",
      defines := [
      "EEPROM_MENU_ENABLE",
      "BUILD_STATS",
      "SINGLE_EXTRUDER",
      "ALTERNATE_UART",
      "ZYYX_3D_PRINTER",
      "COOLING_FAN_PWM",
      "PLATFORM_SPLASH1_MSG=\\\"SF-ZYYX 3DP\\\"",
      "PLATFORM_THE_REPLICATOR_STR=\\\"ZYYX 3D Printer\\\"",
      "PLATFORM_X_OFFSET_STEPS=11957L",
      "PLATFORM_Y_OFFSET_STEPS=10186L",
      "PLATFORM_HBP_PRESENT=0",
      "PLATFORM_AXIS_LENGTHS=\x7b270L, 230L, 195L, 100000L, 100000L\x7d",
      "PLATFORM_AXIS_STEPS_PER_MM=\x7b88573186, 88573186, 400000000, 96275202, 96275202\x7d",
      "HEATERS_ON_STEROIDS",
      "AUTO_LEVEL",
      "AUTO_LEVEL_IGNORE_ZMIN_ONBUILD",
      "AUTO_LEVEL_ZYYX",
      "PSTOP_ZMIN_LEVEL",
      "ZYYX_LEVEL_SCRIPT"] }),
  ("zyyx-dual-2560",
    { mcu := "atmega2560",
      programmer := "stk500v2",
      board_directory := "mighty_one",
      defines := [
      "EEPROM_MENU_ENABLE",
      "BUILD_STATS",
      "COOLING_FAN_PWM",
      "ALTERNATE_UART",
      "ZYYX_3D_PRINTER",
      "PLATFORM_SPLASH1_MSG=\\\"SF-ZYYX 3DP\\\"",
      "PLATFORM_THE_REPLICATOR_STR=\\\"ZYYX 3D Printer\\\"",
      "PLATFORM_X_OFFSET_STEPS=11957L",
      "PLATFORM_Y_OFFSET_STEPS=10186L",
      "PLATFORM_HBP_PRESENT=0",
      "PLATFORM_AXIS_LENGTHS=\x7b270L, 230L, 195L, 100000L, 100000L\x7d",
      "PLATFORM_AXIS_STEPS_PER_MM=\x7b88573186, 88573186, 400000000, 96275202, 96275202\x7d",
      "HEATERS_ON_STEROIDS",
      "AUTO_LEVEL",
      "AUTO_LEVEL_IGNORE_ZMIN_ONBUILD",
      "AUTO_LEVEL_ZYYX",
      "PSTOP_ZMIN_LEVEL",
      "ZYYX_LEVEL_SCRIPT"] }),
  ("azteeg-x3-xymax",
    { mcu := "atmega2560",
      programmer := "stk500v2",
      board_directory := "azteeg_x3",
      defines := [
      "BUILD_STATS",
      "HEATERS_ON_STEROIDS",
      "PLATFORM_SPLASH1_MSG=\\\"SF-Azteeg XYmx\\\"",
      "PLATFORM_THE_REPLICATOR_STR=\\\"Azteeg X3\\\"",
      "PLATFORM_X_OFFSET_STEPS=14309L",
      "PLATFORM_Y_OFFSET_STEPS=7060L",
      "PLATFORM_VREF_DEFAULTS=\x7b127, 127, 127, 127, 127\x7d",
      "AUTO_LEVEL",
      "AUTO_LEVEL_IGNORE_ZMIN_ONBUILD",
      "PSTOP_ZMIN_LEVEL",
      "COOLING_FAN_PWM",
      "EEPROM_MENU_ENABLE",
      "HAS_RGB_LED"] }),
  ("azteeg-x3-xymax-corexy",
    { mcu := "atmega2560",
      programmer := "stk500v2",
      board_directory := "azteeg_x3",
      defines := [
      "CORE_XY",
      "BUILD_STATS",
      "HEATERS_ON_STEROIDS",
      "PLATFORM_SPLASH1_MSG=\\\"SF-Azteeg XYmx\\\"",
      "PLATFORM_THE_REPLICATOR_STR=\\\"Azteeg X3 CoreXY\\\"",
      "PLATFORM_X_OFFSET_STEPS=14309L",
      "PLATFORM_Y_OFFSET_STEPS=7060L",
      "PLATFORM_VREF_DEFAULTS=\x7b127, 127, 127, 127, 127\x7d",
      "AUTO_LEVEL",
      "AUTO_LEVEL_IGNORE_ZMIN_ONBUILD",
      "PSTOP_ZMIN_LEVEL",
      "COOLING_FAN_PWM",
      "EEPROM_MENU_ENABLE",
      "HAS_RGB_LED"] }),
  ("azteeg-x3-xymin",
    { mcu := "atmega2560",
      programmer := "stk500v2",
      board_directory := "azteeg_x3",
      defines := [
      "BUILD_STATS",
      "HEATERS_ON_STEROIDS",
      "XY_MIN_HOMING",
      "PLATFORM_SPLASH1_MSG=\\\"SF-Azteeg XYmn\\\"",
      "PLATFORM_THE_REPLICATOR_STR=\\\"Azteeg X3\\\"",
      "PLATFORM_X_OFFSET_STEPS=0L",
      "PLATFORM_Y_OFFSET_STEPS=0L",
      "PLATFORM_VREF_DEFAULTS=\x7b127, 127, 127, 127, 127\x7d",
      "AUTO_LEVEL",
      "AUTO_LEVEL_IGNORE_ZMIN_ONBUILD",
      "PSTOP_ZMIN_LEVEL",
      "COOLING_FAN_PWM",
      "EEPROM_MENU_ENABLE",
      "HAS_RGB_LED"] }),
  ("azteeg-x3-xymin-corexy",
    { mcu := "atmega2560",
      programmer := "stk500v2",
      board_directory := "azteeg_x3",
      defines := [
      "CORE_XY",
      "BUILD_STATS",
      "HEATERS_ON_STEROIDS",
      "PLATFORM_SPLASH1_MSG=\\\"SF-Azteeg XYmn\\\"",
      "PLATFORM_THE_REPLICATOR_STR=\\\"Azteeg X3 CoreXY\\\"",
      "PLATFORM_X_OFFSET_STEPS=0L",
      "PLATFORM_Y_OFFSET_STEPS=0L",
      "PLATFORM_VREF_DEFAULTS=\x7b127, 127, 127, 127, 127\x7d",
      "AUTO_LEVEL",
      "AUTO_LEVEL_IGNORE_ZMIN_ONBUILD",
      "PSTOP_ZMIN_LEVEL",
      "COOLING_FAN_PWM",
      "EEPROM_MENU_ENABLE",
      "HAS_RGB_LED",
      "XY_MIN_HOMING"] })
]

/-! ### Derived definitions used by the theorems -/

/-- The symbol name a directive concerns. -/
def dirName : DefineDirective → String
  | .add n _ => n
  | .sub n => n

/-- The effect of a directive on its own name: an additive directive leaves
`some value`, a subtractive one leaves nothing. -/
def dirVal : DefineDirective → Option (Option String)
  | .add _ v => some v
  | .sub _ => none

/-- The last directive of the sequence concerning name `k`, if any. -/
def lastDirectiveFor (ds : List DefineDirective) (k : String) : Option DefineDirective :=
  ds.foldl (fun acc d => if dirName d = k then some d else acc) none

/-- Each key followed by one space, in order (the loop body of lines 896-897). -/
def sepConcat : List String → List Char
  | [] => []
  | k :: t => k.data ++ ' ' :: sepConcat t

/-- The `franken-board` example from the header comment of the source
(lines 8-17), used as a concrete extension profile. -/
def frankenBoard : Profile :=
  { mcu := "atmega2560", programmer := "stk500v2",
    board_directory := "mighty_one",
    defines := ["CORE_XY", "BUILD_STATS", "ALTERNATE_UART",
                "HEATERS_ON_STEROIDS", "MAX31855",
                "__DELAY_BACKWARD_COMPATIBLE__", "__PROG_TYPES_COMPAT__"] }

/-- The profile of the baseline entry `wanhao_dup4-hyper-zmax`
(lines 711-723 of the source), whose raw defines list contains
`USE_ZMAX_HOME` twice. -/
def wanhaoDup4HyperZmax : Profile :=
  { mcu := "atmega1280", programmer := "stk500v1",
    board_directory := "mighty_one",
    defines := [
      "AUTO_LEVEL", "PSTOP_ZMIN_LEVEL", "AUTO_LEVEL_IGNORE_ZMIN_ONBUILD",
      "USE_ZMAX_HOME", "BUILD_STATS", "HEATERS_ON_STEROIDS",
      "COOLING_FAN_PWM", "USE_ZMAX_HOME",
      "PLATFORM_SPLASH1_MSG=\\\"SF-Wanhao Dup4\\\"",
      "PLATFORM_THE_REPLICATOR_STR=\\\"Wanhao Duplicatr\\\"",
      "PLATFORM_TOOLHEAD_OFFSET_X=3201",
      "PLATFORM_X_OFFSET_STEPS=13763L",
      "PLATFORM_Y_OFFSET_STEPS=6919L",
      "HAS_RGB_LED", "EEPROM_MENU_ENABLE"] }

/-! ### Association-list dictionary lemmas -/

theorem dictGet_dictSet {α : Type} (m : PyDict α) (k : String) (v : α) (n : String) :
    dictGet (dictSet m k v) n = if k = n then some v else dictGet m n := by
  induction m with
  | nil => simp [dictSet, dictGet]
  | cons p rest ih =>
      obtain ⟨a, w⟩ := p
      by_cases h : a = k
      · subst h
        by_cases h2 : a = n <;> simp [dictSet, dictGet, h2]
      · by_cases h2 : a = n
        · subst h2
          have hk : ¬ (k = a) := fun hk => h hk.symm
          simp [dictSet, h, dictGet, hk]
        · simp [dictSet, h, dictGet, h2, ih]

theorem dictGet_eq_none_iff {α : Type} (m : PyDict α) (n : String) :
    dictGet m n = none ↔ n ∉ dictKeys m := by
  induction m with
  | nil => simp [dictGet, dictKeys]
  | cons p rest ih =>
      obtain ⟨a, w⟩ := p
      by_cases h : a = n
      · subst h; simp [dictGet, dictKeys]
      · have hn : ¬ (n = a) := fun h2 => h h2.symm
        simp only [dictGet, if_neg h, dictKeys, List.map_cons, List.mem_cons, not_or]
        simp only [dictKeys] at ih
        simp [ih, hn]

theorem dictKeys_dictSet {α : Type} (m : PyDict α) (k : String) (v : α) :
    dictKeys (dictSet m k v) =
      if k ∈ dictKeys m then dictKeys m else dictKeys m ++ [k] := by
  induction m with
  | nil => simp [dictSet, dictKeys]
  | cons p rest ih =>
      obtain ⟨a, w⟩ := p
      by_cases h : a = k
      · subst h; simp [dictSet, dictKeys]
      · have hk : ¬ (k = a) := fun hk => h hk.symm
        simp only [dictKeys, dictSet, if_neg h, List.map_cons] at ih ⊢
        rw [ih]
        by_cases h2 : k ∈ List.map Prod.fst rest <;> simp [h2, hk]

theorem nodup_dictKeys_dictSet {α : Type} (m : PyDict α) (k : String) (v : α)
    (h : (dictKeys m).Nodup) : (dictKeys (dictSet m k v)).Nodup := by
  rw [dictKeys_dictSet]
  by_cases h2 : k ∈ dictKeys m
  · simpa [h2] using h
  · simp only [h2, if_false]
    exact List.Nodup.append h (List.nodup_singleton k) (by simpa using h2)

theorem dictSet_eq_self {α : Type} (m : PyDict α) (k : String) (v : α)
    (h : dictGet m k = some v) : dictSet m k v = m := by
  induction m with
  | nil => simp [dictGet] at h
  | cons p rest ih =>
      obtain ⟨a, w⟩ := p
      by_cases h2 : a = k
      · subst h2
        simp [dictGet] at h
        simp [dictSet, h]
      · simp [dictGet, h2] at h
        simp [dictSet, h2, ih h]

/-! ### Removal lemmas -/

theorem dictGet_removeDefine (m : DefineSet) (n k : String) :
    dictGet (removeDefine m n) k = if n = k then none else dictGet m k := by
  induction m with
  | nil => simp [removeDefine, dictGet]
  | cons p rest ih =>
      obtain ⟨a, w⟩ := p
      by_cases h : a = n
      · subst h
        by_cases h2 : a = k
        · subst h2; simp [removeDefine, ih]
        · have hk : ¬ (k = a) := fun hk => h2 hk.symm
          simp [removeDefine, dictGet, h2, ih]
      · by_cases h2 : a = k
        · subst h2
          have hn : ¬ (n = a) := fun hn => h hn.symm
          simp [removeDefine, h, dictGet, hn]
        · simp [removeDefine, h, dictGet, h2, ih]

theorem removeDefine_sublist (m : DefineSet) (n : String) :
    (removeDefine m n).Sublist m := by
  induction m with
  | nil => simp [removeDefine]
  | cons p rest ih =>
      obtain ⟨a, w⟩ := p
      by_cases h : a = n
      · simp only [removeDefine, if_pos h]
        exact ih.cons (a, w)
      · simp only [removeDefine, if_neg h]
        exact ih.cons₂ (a, w)

theorem nodup_dictKeys_removeDefine (m : DefineSet) (n : String)
    (h : (dictKeys m).Nodup) : (dictKeys (removeDefine m n)).Nodup :=
  List.Nodup.sublist (List.Sublist.map Prod.fst (removeDefine_sublist m n)) h

/-! ### Merge lemmas -/

theorem mergePlatforms_nil (base : Registry) : mergePlatforms base [] = base := rfl

theorem mergePlatforms_cons (base : Registry) (k : String) (v : Profile)
    (ext : Registry) :
    mergePlatforms base ((k, v) :: ext) = mergePlatforms (dictSet base k v) ext := rfl

theorem dictGet_mergePlatforms_not_assigned (base ext : Registry) (n : String)
    (h : n ∉ dictKeys ext) :
    dictGet (mergePlatforms base ext) n = dictGet base n := by
  induction ext generalizing base with
  | nil => rfl
  | cons p rest ih =>
      obtain ⟨a, w⟩ := p
      simp only [dictKeys, List.map_cons, List.mem_cons, not_or] at h
      rw [mergePlatforms_cons, ih (dictSet base a w) (by simp [dictKeys, h.2]),
        dictGet_dictSet]
      have : ¬ (a = n) := fun h2 => h.1 h2.symm
      simp [this]

theorem mem_dictKeys_mergePlatforms_left (base ext : Registry) (n : String)
    (h : n ∈ dictKeys base) : n ∈ dictKeys (mergePlatforms base ext) := by
  induction ext generalizing base with
  | nil => exact h
  | cons p rest ih =>
      obtain ⟨a, w⟩ := p
      rw [mergePlatforms_cons]
      refine ih (dictSet base a w) ?_
      rw [dictKeys_dictSet]
      by_cases h2 : a ∈ dictKeys base <;> simp [h2, h]

theorem nodup_dictKeys_mergePlatforms (base ext : Registry)
    (h : (dictKeys base).Nodup) : (dictKeys (mergePlatforms base ext)).Nodup := by
  induction ext generalizing base with
  | nil => exact h
  | cons p rest ih =>
      obtain ⟨a, w⟩ := p
      rw [mergePlatforms_cons]
      exact ih (dictSet base a w) (nodup_dictKeys_dictSet base a w h)

theorem dictGet_mergePlatforms (base ext : Registry) (n : String)
    (h : (dictKeys ext).Nodup) :
    dictGet (mergePlatforms base ext) n =
      match dictGet ext n with
      | some v => some v
      | none => dictGet base n := by
  induction ext generalizing base with
  | nil => rfl
  | cons p rest ih =>
      obtain ⟨a, w⟩ := p
      simp only [dictKeys, List.map_cons, List.nodup_cons] at h
      rw [mergePlatforms_cons]
      by_cases h2 : a = n
      · subst h2
        have hnone : dictGet rest a = none := by
          rw [dictGet_eq_none_iff]
          exact h.1
        rw [ih (dictSet base a w) h.2]
        simp [dictGet, hnone, dictGet_dictSet]
      · rw [ih (dictSet base a w) h.2]
        simp [dictGet, h2, dictGet_dictSet]

/-- Two dicts without duplicate keys, with the same key list and the same
lookups, are the same list. -/
theorem pydict_ext {α : Type} (m₁ m₂ : PyDict α)
    (hnd : (dictKeys m₁).Nodup) (hkeys : dictKeys m₁ = dictKeys m₂)
    (hget : ∀ k, dictGet m₁ k = dictGet m₂ k) : m₁ = m₂ := by
  induction m₁ generalizing m₂ with
  | nil =>
      cases m₂ with
      | nil => rfl
      | cons q r₂ => simp [dictKeys] at hkeys
  | cons p r₁ ih =>
      obtain ⟨a, w⟩ := p
      cases m₂ with
      | nil => simp [dictKeys] at hkeys
      | cons q r₂ =>
          obtain ⟨b, w₂⟩ := q
          simp only [dictKeys, List.map_cons, List.cons.injEq] at hkeys
          obtain ⟨hab, htails⟩ := hkeys
          subst hab
          have hw : w = w₂ := by
            have := hget a
            simp [dictGet] at this
            exact this
          subst hw
          simp only [dictKeys, List.map_cons, List.nodup_cons] at hnd
          have htail : ∀ k, dictGet r₁ k = dictGet r₂ k := by
            intro k
            by_cases hk : a = k
            · subst hk
              have h₁ : dictGet r₁ a = none := (dictGet_eq_none_iff r₁ a).mpr hnd.1
              have h₂ : dictGet r₂ a = none := by
                rw [dictGet_eq_none_iff]
                show a ∉ List.map Prod.fst r₂
                rw [← htails]
                exact hnd.1
              rw [h₁, h₂]
            · have := hget k
              simpa [dictGet, hk] using this
          rw [ih r₂ hnd.2 (by simpa [dictKeys] using htails) htail]

/-- Merging the same extension on top of two starting registries that have
the same keys and agree outside the extension's keys gives the same result. -/
theorem mergePlatforms_congr (ext : Registry) (m₁ m₂ : Registry)
    (hnd : (dictKeys m₁).Nodup) (hkeys : dictKeys m₁ = dictKeys m₂)
    (hget : ∀ k, k ∉ dictKeys ext → dictGet m₁ k = dictGet m₂ k) :
    mergePlatforms m₁ ext = mergePlatforms m₂ ext := by
  induction ext generalizing m₁ m₂ with
  | nil =>
      exact pydict_ext m₁ m₂ hnd hkeys (fun k => hget k (by simp [dictKeys]))
  | cons p t ih =>
      obtain ⟨a, w⟩ := p
      rw [mergePlatforms_cons, mergePlatforms_cons]
      refine ih (dictSet m₁ a w) (dictSet m₂ a w)
        (nodup_dictKeys_dictSet m₁ a w hnd) ?_ ?_
      · rw [dictKeys_dictSet, dictKeys_dictSet, hkeys]
      · intro k hk
        rw [dictGet_dictSet, dictGet_dictSet]
        by_cases hak : a = k
        · simp [hak]
        · have : k ∉ dictKeys ((a, w) :: t) := by
            simp only [dictKeys, List.map_cons, List.mem_cons, not_or]
            exact ⟨fun h2 => hak h2.symm, hk⟩
          simp [hak, hget k this]

/-- Applying the same extension merge twice gives the same registry as
applying it once. -/
theorem mergePlatforms_idem (base ext : Registry)
    (hnd : (dictKeys base).Nodup) :
    mergePlatforms (mergePlatforms base ext) ext = mergePlatforms base ext := by
  induction ext generalizing base with
  | nil => rfl
  | cons p t ih =>
      obtain ⟨a, w⟩ := p
      show mergePlatforms (dictSet (mergePlatforms (dictSet base a w) t) a w) t =
        mergePlatforms (dictSet base a w) t
      have hndset : (dictKeys (dictSet base a w)).Nodup :=
        nodup_dictKeys_dictSet base a w hnd
      have hndM : (dictKeys (mergePlatforms (dictSet base a w) t)).Nodup :=
        nodup_dictKeys_mergePlatforms (dictSet base a w) t hndset
      have hmem : a ∈ dictKeys (mergePlatforms (dictSet base a w) t) := by
        refine mem_dictKeys_mergePlatforms_left (dictSet base a w) t a ?_
        rw [dictKeys_dictSet]
        by_cases h2 : a ∈ dictKeys base <;> simp [h2]
      have hstep :
          mergePlatforms (dictSet (mergePlatforms (dictSet base a w) t) a w) t =
            mergePlatforms (mergePlatforms (dictSet base a w) t) t := by
        refine mergePlatforms_congr t _ _
          (nodup_dictKeys_dictSet _ a w hndM) ?_ ?_
        · rw [dictKeys_dictSet]
          simp [hmem]
        · intro k hk
          rw [dictGet_dictSet]
          by_cases hak : a = k
          · subst hak
            rw [dictGet_mergePlatforms_not_assigned (dictSet base a w) t a hk,
              dictGet_dictSet]
            simp
          · simp [hak]
      rw [hstep, ih (dictSet base a w) hndset]

/-! ### Define-composition lemmas -/


theorem lastDirectiveFor_aux (ds : List DefineDirective) (k : String)
    (acc : Option DefineDirective) :
    ds.foldl (fun a d => if dirName d = k then some d else a) acc =
      match ds.foldl (fun a d => if dirName d = k then some d else a) none with
      | some d => some d
      | none => acc := by
  induction ds generalizing acc with
  | nil => rfl
  | cons d t ih =>
      simp only [List.foldl_cons]
      rw [ih (if dirName d = k then some d else acc),
        ih (if dirName d = k then some d else none)]
      cases t.foldl (fun a d => if dirName d = k then some d else a) none with
      | some x => rfl
      | none => by_cases h : dirName d = k <;> simp [h]

theorem dictGet_foldl_applyDirective (ds : List DefineDirective) (m : DefineSet)
    (k : String) :
    dictGet (ds.foldl applyDirective m) k =
      match lastDirectiveFor ds k with
      | some d => dirVal d
      | none => dictGet m k := by
  induction ds generalizing m with
  | nil => rfl
  | cons d t ih =>
      simp only [List.foldl_cons]
      rw [ih (applyDirective m d)]
      show _ = match lastDirectiveFor (d :: t) k with
        | some d => dirVal d
        | none => dictGet m k
      unfold lastDirectiveFor
      simp only [List.foldl_cons]
      rw [lastDirectiveFor_aux t k (if dirName d = k then some d else none)]
      cases hlast : t.foldl (fun a d => if dirName d = k then some d else a) none with
      | some x => simp [lastDirectiveFor, hlast]
      | none =>
          simp only [lastDirectiveFor, hlast]
          by_cases h : dirName d = k
          · cases d with
            | add n v =>
                simp only [dirName] at h
                subst h
                simp [applyDirective, dictGet_dictSet, dirVal, dirName]
            | sub n =>
                simp only [dirName] at h
                subst h
                simp [applyDirective, dictGet_removeDefine, dirVal, dirName]
          · cases d with
            | add n v =>
                simp only [dirName] at h
                simp [applyDirective, dictGet_dictSet, h, dirName]
            | sub n =>
                simp only [dirName] at h
                simp [applyDirective, dictGet_removeDefine, h, dirName]

theorem nodup_dictKeys_foldl_applyDirective (ds : List DefineDirective)
    (m : DefineSet) (h : (dictKeys m).Nodup) :
    (dictKeys (ds.foldl applyDirective m)).Nodup := by
  induction ds generalizing m with
  | nil => exact h
  | cons d t ih =>
      simp only [List.foldl_cons]
      refine ih (applyDirective m d) ?_
      cases d with
      | add n v => exact nodup_dictKeys_dictSet m n v h
      | sub n => exact nodup_dictKeys_removeDefine m n h

/-! ### CLI listing lemmas -/


theorem string_data_append (a b : String) : (a ++ b).data = a.data ++ b.data := rfl

theorem cliAccum_data_aux (ks : List String) (a : String) :
    (ks.foldl (fun acc k => acc ++ k ++ " ") a).data = a.data ++ sepConcat ks := by
  induction ks generalizing a with
  | nil => simp [sepConcat]
  | cons k t ih =>
      simp only [List.foldl_cons, sepConcat]
      rw [ih (a ++ k ++ " ")]
      simp [string_data_append]

theorem dropLast_cons_of_ne_nil {α : Type} (x : α) (l : List α) (h : l ≠ []) :
    (x :: l).dropLast = x :: l.dropLast := by
  cases l with
  | nil => exact absurd rfl h
  | cons y t => rfl

theorem dropLast_append_cons {α : Type} (a : List α) (c : α) (b : List α) :
    (a ++ c :: b).dropLast = a ++ (c :: b).dropLast := by
  induction a with
  | nil => rfl
  | cons x t ih =>
      rw [List.cons_append, dropLast_cons_of_ne_nil x (t ++ c :: b) (by simp), ih,
        List.cons_append]

theorem sepConcat_ne_nil (k : String) (t : List String) : sepConcat (k :: t) ≠ [] := by
  simp [sepConcat]

theorem dropLast_sepConcat (ks : List String) :
    (sepConcat ks).dropLast = joinSpace (ks.map String.data) := by
  induction ks with
  | nil => rfl
  | cons k t ih =>
      cases t with
      | nil =>
          show (k.data ++ ' ' :: []).dropLast = joinSpace [k.data]
          rw [dropLast_append_cons]
          simp [joinSpace]
      | cons y u =>
          show (k.data ++ ' ' :: sepConcat (y :: u)).dropLast = _
          rw [dropLast_append_cons,
            dropLast_cons_of_ne_nil ' ' (sepConcat (y :: u)) (sepConcat_ne_nil y u), ih]
          rfl

theorem cliOutput_data (ks : List String) :
    (cliOutput ks).data = joinSpace (ks.map String.data) := by
  show ((cliAccum ks).data).dropLast = _
  rw [show cliAccum ks = ks.foldl (fun acc k => acc ++ k ++ " ") "" from rfl,
    cliAccum_data_aux ks ""]
  show (sepConcat ks).dropLast = _
  exact dropLast_sepConcat ks

/-! ### Resolution lemmas -/

theorem resolve_eq_ok_of_dictGet (reg : Registry) (id : String) (p : Profile)
    (h : dictGet reg id = some p) :
    resolve reg id =
      .ok ⟨p.mcu, p.programmer, p.board_directory, composeDefines p.defines⟩ := by
  unfold resolve
  rw [h]

theorem resolve_eq_error_of_not_mem (reg : Registry) (id : String)
    (h : id ∉ dictKeys reg) : resolve reg id = .error ⟨id⟩ := by
  unfold resolve
  rw [(dictGet_eq_none_iff reg id).mpr h]

theorem exists_dictGet_of_mem_keys {α : Type} (m : PyDict α) (k : String)
    (h : k ∈ dictKeys m) : ∃ v, dictGet m k = some v := by
  cases hv : dictGet m k with
  | none => exact absurd h ((dictGet_eq_none_iff m k).mp hv)
  | some v => exact ⟨v, rfl⟩

theorem mem_keys_of_dictGet_eq_some {α : Type} (m : PyDict α) (k : String) (v : α)
    (h : dictGet m k = some v) : k ∈ dictKeys m := by
  by_contra h2
  rw [(dictGet_eq_none_iff m k).mpr h2] at h
  cases h

theorem mem_of_dictGet_eq_some {α : Type} (m : PyDict α) (k : String) (v : α)
    (h : dictGet m k = some v) : (k, v) ∈ m := by
  induction m with
  | nil => simp [dictGet] at h
  | cons p rest ih =>
      obtain ⟨a, w⟩ := p
      by_cases h2 : a = k
      · subst h2
        have hw : w = v := by simpa [dictGet] using h
        subst hw
        exact List.mem_cons_self _ _
      · simp only [dictGet, if_neg h2] at h
        exact List.mem_cons_of_mem _ (ih h)

/-! ### Sample extension data -/


/-! ### Claim theorems -/

/-- C1: Define composition applies directives in sequence order over an
initially empty name-to-value mapping; an additive directive `NAME` or
`NAME=value` inserts or overwrites that name (a bare name maps to the
no-value sentinel `none`), and a subtractive directive `-NAME` or
`-NAME=value` removes the name if present, removal of an absent name being
a no-op; composing `['A', '-A']` yields the empty set, `['-A', 'A']`
yields `{A}`, and `['A=1', 'A=2']` yields `{A: 2}`. -/
theorem defineComposition_directive_semantics :
    (∀ ds : List String,
        composeDefines ds = (ds.map parseDirective).foldl applyDirective []) ∧
    (∀ (ds : List String) (d : String),
        composeDefines (ds ++ [d]) =
          applyDirective (composeDefines ds) (parseDirective d)) ∧
    (∀ (m : DefineSet) (n : String) (v : Option String) (k : String),
        dictGet (applyDirective m (.add n v)) k =
          if n = k then some v else dictGet m k) ∧
    (∀ (m : DefineSet) (n k : String),
        dictGet (applyDirective m (.sub n)) k =
          if n = k then none else dictGet m k) ∧
    parseDirective "A" = .add "A" none ∧
    parseDirective "A=1" = .add "A" (some "1") ∧
    parseDirective "-A" = .sub "A" ∧
    composeDefines ["A", "-A"] = [] ∧
    composeDefines ["-A", "A"] = [("A", none)] ∧
    composeDefines ["A=1", "A=2"] = [("A", some "2")] := by
  refine ⟨fun ds => rfl, fun ds d => ?_, fun m n v k => dictGet_dictSet m n v k,
    fun m n k => dictGet_removeDefine m n k,
    by decide, by decide, by decide, by decide, by decide, by decide⟩
  unfold composeDefines composeDirectives
  rw [List.map_append, List.foldl_append]
  rfl

/-- C2: for every extension mapping (a dict, hence without duplicate keys)
and every id present in it, the merged registry maps that id to exactly
the extension's profile — entirely replacing a baseline entry of the same
id or inserting it as a new platform, so a brand-new id appears among the
known ids — and every id not present in the extension keeps its baseline
profile unchanged. -/
theorem mergePlatforms_whole_profile_replacement (base ext : Registry)
    (hext : (dictKeys ext).Nodup) :
    (∀ id p, dictGet ext id = some p →
        dictGet (mergePlatforms base ext) id = some p) ∧
    (∀ id, id ∉ dictKeys ext →
        dictGet (mergePlatforms base ext) id = dictGet base id) ∧
    (∀ id, id ∈ dictKeys ext → id ∈ dictKeys (mergePlatforms base ext)) := by
  refine ⟨?_, ?_, ?_⟩
  · intro id p h
    rw [dictGet_mergePlatforms base ext id hext, h]
  · intro id h
    exact dictGet_mergePlatforms_not_assigned base ext id h
  · intro id h
    obtain ⟨p, hp⟩ := exists_dictGet_of_mem_keys ext id h
    have h2 : dictGet (mergePlatforms base ext) id = some p := by
      rw [dictGet_mergePlatforms base ext id hext, hp]
    exact mem_keys_of_dictGet_eq_some _ id p h2

/-- Witness for C2 at a concrete input: merging an extension that adds
`franken-board` on top of the shipped baseline yields a registry mapping
`franken-board` to exactly the extension's profile. -/
theorem mergePlatforms_whole_profile_replacement_witness :
    dictGet (mergePlatforms baselinePlatforms [("franken-board", frankenBoard)])
        "franken-board" = some frankenBoard :=
  (mergePlatforms_whole_profile_replacement baselinePlatforms
    [("franken-board", frankenBoard)] (by decide)).1 "franken-board" frankenBoard
    (by decide)

/-- C3 fails on the code: loading a site extension does not leave the
baseline registry object unchanged — the merge loop assigns into the
module's `platforms` dictionary itself, so after a load that adds
`franken-board` the registry object no longer holds the original baseline
mapping. -/
theorem siteLoad_mutates_baseline_cex :
    ¬ ((moduleInit baselinePlatforms
          (some (.ok [("franken-board", frankenBoard)]))).2 = baselinePlatforms) := by
  decide

/-- C3 (amended): the loader updates the module's registry dictionary in
place instead of returning a separate merged mapping: after a successful
site load the single registry object holds exactly the per-key replacement
merge of baseline and extension, the load has no other effect or result,
and the object keeps its baseline bindings precisely at ids the extension
does not assign. -/
theorem siteLoad_in_place_merge (base ext : Registry) :
    (moduleInit base (some (.ok ext))).2 = mergePlatforms base ext ∧
    (moduleInit base (some (.ok ext))).1 = .ok () ∧
    (∀ k, k ∉ dictKeys ext →
      dictGet (moduleInit base (some (.ok ext))).2 k = dictGet base k) :=
  ⟨rfl, rfl, fun k h => dictGet_mergePlatforms_not_assigned base ext k h⟩

/-- Witness for the amended C3 at a concrete input: after merging the
`franken-board` extension, the id `mighty_one` (not assigned by the
extension) still looks up to its baseline profile. -/
theorem siteLoad_in_place_merge_witness :
    dictGet (moduleInit baselinePlatforms
        (some (.ok [("franken-board", frankenBoard)]))).2 "mighty_one" =
      dictGet baselinePlatforms "mighty_one" :=
  (siteLoad_in_place_merge baselinePlatforms [("franken-board", frankenBoard)]).2.2
    "mighty_one" (by decide)

/-- C4 fails on the code: there is no `ExtensionLoadError` wrapper — when
the site file exists but cannot be evaluated, the underlying error
propagates as-is out of the module load, not wrapped. -/
theorem malformed_site_error_unwrapped_cex :
    ¬ ((moduleInit baselinePlatforms
          (some (.error "SyntaxError: invalid syntax"))).1 =
        .error (.extensionLoadError "SyntaxError: invalid syntax")) := by
  intro h
  simp [moduleInit] at h

/-- C4 (amended): if the extension source exists but cannot be
parsed/evaluated, the module load fails by propagating the underlying
parse/evaluation error itself — the source defines no `ExtensionLoadError`
wrapper, so the failure is never of that shape — and the registry is never
partially updated from the malformed source: at the failure it still holds
exactly the baseline. -/
theorem malformed_site_propagates_raw_error (base : Registry) (e : String) :
    (moduleInit base (some (.error e))).1 = .error (.execError e) ∧
    (moduleInit base (some (.error e))).2 = base ∧
    (∀ msg, ¬ ((moduleInit base (some (.error e))).1 =
        .error (.extensionLoadError msg))) := by
  refine ⟨rfl, rfl, ?_⟩
  intro msg h
  simp [moduleInit] at h

/-- Witness for the amended C4 at a concrete input. -/
theorem malformed_site_propagates_raw_error_witness :
    ¬ ((moduleInit [] (some (.error "boom"))).1 =
        .error (.extensionLoadError "boom")) :=
  (malformed_site_propagates_raw_error [] "boom").2.2 "boom"

/-- C5: for every platform id in the baseline registry, `resolve` succeeds
and returns a profile whose `mcu`, `programmer` and `boardDirectory`
fields are all non-empty strings. -/
theorem baseline_resolve_nonempty_fields :
    ∀ id, id ∈ dictKeys baselinePlatforms →
      ∃ r, resolve baselinePlatforms id = .ok r ∧
        r.mcu ≠ "" ∧ r.programmer ≠ "" ∧ r.boardDirectory ≠ "" := by
  have hall : baselinePlatforms.all
      (fun kv => decide (kv.2.mcu ≠ "" ∧ kv.2.programmer ≠ "" ∧
        kv.2.board_directory ≠ "")) = true := by decide
  intro id hmem
  obtain ⟨p, hp⟩ := exists_dictGet_of_mem_keys baselinePlatforms id hmem
  have hpair := mem_of_dictGet_eq_some baselinePlatforms id p hp
  have hprops := List.all_eq_true.mp hall (id, p) hpair
  have hfields := of_decide_eq_true hprops
  exact ⟨⟨p.mcu, p.programmer, p.board_directory, composeDefines p.defines⟩,
    resolve_eq_ok_of_dictGet baselinePlatforms id p hp,
    hfields.1, hfields.2.1, hfields.2.2⟩

/-- Witness for C5 at a concrete id of the baseline registry. -/
theorem baseline_resolve_nonempty_fields_witness :
    ∃ r, resolve baselinePlatforms "mighty_one" = .ok r ∧
      r.mcu ≠ "" ∧ r.programmer ≠ "" ∧ r.boardDirectory ≠ "" :=
  baseline_resolve_nonempty_fields "mighty_one" (by decide)

/-- C6: `resolve` fails with `UnknownPlatformError` exactly on ids absent
from the registry: for every registry, resolution succeeds iff the id is
among the known ids and otherwise fails with `UnknownPlatformError`
carrying the id; in particular resolving `"nonexistent-id"` against the
registry produced by baseline load with no extension source fails with
`UnknownPlatformError`. -/
theorem resolve_unknown_platform :
    (∀ (reg : Registry) (id : String), id ∉ dictKeys reg →
        resolve reg id = .error ⟨id⟩) ∧
    (∀ (reg : Registry) (id : String),
        (∃ r, resolve reg id = .ok r) ↔ id ∈ dictKeys reg) ∧
    resolve (moduleInit baselinePlatforms none).2 "nonexistent-id" =
      .error ⟨"nonexistent-id"⟩ := by
  refine ⟨fun reg id h => resolve_eq_error_of_not_mem reg id h, ?_, ?_⟩
  · intro reg id
    constructor
    · rintro ⟨r, hr⟩
      by_contra h
      rw [resolve_eq_error_of_not_mem reg id h] at hr
      cases hr
    · intro h
      obtain ⟨p, hp⟩ := exists_dictGet_of_mem_keys reg id h
      exact ⟨_, resolve_eq_ok_of_dictGet reg id p hp⟩
  · refine resolve_eq_error_of_not_mem _ _ ?_
    decide

/-- Witness for C6 at a concrete registry and id. -/
theorem resolve_unknown_platform_witness :
    resolve [] "nonexistent-id" = .error ⟨"nonexistent-id"⟩ :=
  resolve_unknown_platform.1 [] "nonexistent-id" (by decide)

/-- C7: absence of the extension source is not an error — when no site
file exists, module load succeeds and the merged registry equals the
baseline exactly (same object content, same known ids, same resolution
for every id). -/
theorem absent_site_keeps_baseline (base : Registry) :
    (moduleInit base none).1 = .ok () ∧
    (moduleInit base none).2 = base ∧
    dictKeys (moduleInit base none).2 = dictKeys base ∧
    (∀ id, resolve (moduleInit base none).2 id = resolve base id) :=
  ⟨rfl, rfl, rfl, fun _ => rfl⟩


/-- C8: after define composition of any raw defines sequence, each symbol
name appears at most once in the composed set, and the binding of a name
is determined by the last directive concerning it — so any value present
is the one from the last additive directive for that name; the baseline
entry `wanhao_dup4-hyper-zmax` lists `USE_ZMAX_HOME` twice in its raw
defines, and its composed set contains that name exactly once. -/
theorem composeDefines_nodup_last_wins :
    (∀ ds : List String, (dictKeys (composeDefines ds)).Nodup) ∧
    (∀ (ds : List String) (k : String),
        dictGet (composeDefines ds) k =
          match lastDirectiveFor (ds.map parseDirective) k with
          | some d => dirVal d
          | none => none) ∧
    (∃ p, dictGet baselinePlatforms "wanhao_dup4-hyper-zmax" = some p ∧
        p.defines.count "USE_ZMAX_HOME" = 2 ∧
        (dictKeys (composeDefines p.defines)).count "USE_ZMAX_HOME" = 1) := by
  refine ⟨?_, ?_, ?_⟩
  · intro ds
    exact nodup_dictKeys_foldl_applyDirective (ds.map parseDirective) []
      (by simp [dictKeys])
  · intro ds k
    exact dictGet_foldl_applyDirective (ds.map parseDirective) [] k
  · exact ⟨wanhaoDup4HyperZmax, by decide, by decide, by decide⟩

/-- C9: the `__main__` listing prints the known platform ids as a single
space-separated line: for every key list the printed text is exactly the
ids joined by one space with no trailing separator, and registry key lists
are duplicate-free (for the shipped baseline, and preserved by any
extension merge on top of it), so every id appears exactly once. -/
theorem cliOutput_space_separated :
    (∀ ks : List String, (cliOutput ks).data = joinSpace (ks.map String.data)) ∧
    (dictKeys baselinePlatforms).Nodup ∧
    (∀ ext : Registry,
      (dictKeys (mergePlatforms baselinePlatforms ext)).Nodup) := by
  refine ⟨cliOutput_data, by decide, ?_⟩
  intro ext
  exact nodup_dictKeys_mergePlatforms baselinePlatforms ext (by decide)

/-- C10: the extension merge is idempotent — applying the per-key
replacement merge of the same extension mapping twice in succession yields
exactly the same merged registry as applying it once (for every baseline
registry that is a dict, i.e. has no duplicate keys, and every extension
mapping). -/
theorem mergePlatforms_idempotent (base ext : Registry)
    (hbase : (dictKeys base).Nodup) :
    mergePlatforms (mergePlatforms base ext) ext = mergePlatforms base ext :=
  mergePlatforms_idem base ext hbase

/-- Witness for C10 at a concrete input: merging the `franken-board`
extension twice on top of the shipped baseline equals merging it once. -/
theorem mergePlatforms_idempotent_witness :
    mergePlatforms (mergePlatforms baselinePlatforms
        [("franken-board", frankenBoard)]) [("franken-board", frankenBoard)] =
      mergePlatforms baselinePlatforms [("franken-board", frankenBoard)] :=
  mergePlatforms_idempotent baselinePlatforms [("franken-board", frankenBoard)]
    (by decide)
